import Mathlib

/-!
Verification development for the multisearch / redissearch repository.

The Python sources are embedded shallowly: pure functions become Lean
functions, mutation of objects becomes explicit state passing, and every
code path that raises a Python exception returns an `Except PyErr` value.
Each definition carries a doc comment naming the source file and lines it
embeds.
-/

set_option maxRecDepth 4000

/-- Python exceptions that the embedded code paths can raise.  Each
constructor records the exception class observed at the raise site (after
taking Python name-resolution and call semantics into account) together
with the payload that matters to the claims. -/
inductive PyErr where
  /-- Generic `KeyError(key)` from a dict subscript on a missing key. -/
  | keyError (key : String)
  /-- Generic `TypeError`; the payload describes the failing call. -/
  | typeError (msg : String)
  /-- Generic `RuntimeError(msg)`. -/
  | runtimeError (msg : String)
  /-- Failed `assert` statement. -/
  | assertionError
  /-- Python `NameError` from a raise site that references an unbound
  global.  Two such sites matter here: in redissearch/main.py the
  statements `raise UnimplementedError(...)` (lines 224, 246, 273)
  reference a class that is defined nowhere in the package and is not a
  builtin, and in multisearch/backends/closed_backend.py the body of
  `raiseerror` references the module name `errors`, which that file never
  imports.  Executing either raises NameError before the intended
  exception is even built.  The constructor records the unbound name. -/
  | nameError (name : String)
  /-- multisearch.errors.DocExistsError; payload is the argument passed at
  the raise site. -/
  | docExists (arg : String)
  /-- multisearch.errors.DocNotFoundError. -/
  | docNotFound (arg : String)
  /-- multisearch.errors.DbClosedError. -/
  | dbClosed (msg : String)
  /-- multisearch.errors.DbReadOnlyError. -/
  | dbReadOnly (msg : String)
  /-- Failure raised by `Query.connect` when a query is already attached to
  a different connection (multisearch/queries.py lines 208-213).  The
  source writes `raise ValueError("..." % self, conn, self.conn)`; the
  `%` formatting there is itself broken and raises `TypeError`, but either
  way the call fails with an exception, which is all the claims use. -/
  | connectError
deriving DecidableEq, Repr

namespace Multisearch

/-- Query AST of multisearch/queries.py (classes `Query`, `QueryCombination`
and its `QueryOr`/`QueryAnd`/`QueryAndMaybe`/`QueryXor`/`QueryNot`
subclasses, `QueryMultWeight`, `QueryAll`, `QueryNone`, `QueryTerms`,
`QuerySimilar`).  redissearch/queries.py defines a line-for-line identical
hierarchy (minus `QueryAndMaybe` and `order_by`), so this one type embeds
both modules; definitions below cite the file they are read from.

Every node carries the `conn` attribute (`None` until the node is connected
to a backend; backends are identified by a numeric id, with Python object
identity `is` modelled as equality of ids).  A combination node carries the
`op` class attribute as a natural number, with the same numeric codes as
the source (`OR = 0`, `AND = 1`, `XOR = 2`, `NOT = 3`, `AND_MAYBE = 9`).
The float multiplier of `QueryMultWeight` plays no part in any claim and is
not modelled. -/
inductive Query where
  /-- A bare `Query()` instance of the base class (its `op` attribute is
  `None`).  `Query.compose` returns this for an empty argument list. -/
  | base (conn : Option Nat)
  /-- A `QueryCombination` subclass instance: `op` is the operator code and
  `subqs` the list of subqueries. -/
  | combination (op : Nat) (subqs : List Query) (conn : Option Nat)
  /-- `QueryMultWeight(subq, mult)`; the multiplier is irrelevant to the
  claims and not recorded. -/
  | multWeight (subq : Query) (conn : Option Nat)
  /-- `QueryAll()`. -/
  | queryAll (conn : Option Nat)
  /-- `QueryNone()`. -/
  | queryNone (conn : Option Nat)
  /-- `QueryTerms(terms, default_op)`. -/
  | queryTerms (terms : List String) (default_op : Nat) (conn : Option Nat)
  /-- `QuerySimilar(ids, simterms)`. -/
  | querySimilar (ids : List String) (simterms : Nat) (conn : Option Nat)

/-- Operator code `Query.OR` (multisearch/queries.py line 45). -/
def Query.OR : Nat := 0
/-- Operator code `Query.AND` (line 46). -/
def Query.AND : Nat := 1
/-- Operator code `Query.XOR` (line 47). -/
def Query.XOR : Nat := 2
/-- Operator code `Query.NOT` (line 48). -/
def Query.NOT : Nat := 3
/-- Operator code `Query.TERMS` (line 52). -/
def Query.TERMS : Nat := 7

/-- The `conn` attribute of a query node. -/
def Query.conn : Query → Option Nat
  | .base c => c
  | .combination _ _ c => c
  | .multWeight _ c => c
  | .queryAll c => c
  | .queryNone c => c
  | .queryTerms _ _ c => c
  | .querySimilar _ _ c => c

/-- Replace the `conn` attribute of a query node (the effect of the
assignment `self.conn = conn` inside `Query.connect`). -/
def Query.setConn : Query → Option Nat → Query
  | .base _, c => .base c
  | .combination op subqs _, c => .combination op subqs c
  | .multWeight q _, c => .multWeight q c
  | .queryAll _, c => .queryAll c
  | .queryNone _, c => .queryNone c
  | .queryTerms t d _, c => .queryTerms t d c
  | .querySimilar i s _, c => .querySimilar i s c

/-- The `subqs` attribute of a combination node (empty for every other
node kind, which has no such attribute). -/
def Query.subqs : Query → List Query
  | .combination _ s _ => s
  | _ => []

/-- Whether a node is an instance of the `QueryNone` class ("a query which
matches no documents", multisearch/queries.py lines 318-322) — the
codebase's empty-match node. -/
def Query.isQueryNone : Query → Bool
  | .queryNone _ => true
  | _ => false

/-- Embeds `Query.connect` (multisearch/queries.py lines 201-214, identical
in redissearch/queries.py lines 191-204): if `self.conn is None` the node
is bound to `conn` and returned; if it is already bound to the same
connection the node is returned unchanged; a different connection raises. -/
def Query.connect (q : Query) (conn : Nat) : Except PyErr Query :=
  match q.conn with
  | none => .ok (q.setConn (some conn))
  | some c => if c = conn then .ok q else .error .connectError

/-- The loop of `QueryCombination.__init__` (multisearch/queries.py lines
229-237): starting from the fresh node (whose `conn` is `None`), each
subquery with a non-None `conn` triggers `self.connect(query.conn)`.  The
accumulator is the `conn` built up so far. -/
def connFold : Option Nat → List Query → Except PyErr (Option Nat)
  | acc, [] => .ok acc
  | acc, q :: qs =>
    match q.conn with
    | none => connFold acc qs
    | some c =>
      match acc with
      | none => connFold (some c) qs
      | some a => if a = c then connFold acc qs else .error .connectError

/-- Embeds the construction of a `QueryCombination` subclass instance with
operator code `op` (multisearch/queries.py lines 229-237): the subquery
list is stored as given and the connection is inherited from the already
connected subqueries; subqueries attached to two different connections make
the constructor raise. -/
def mkCombination (op : Nat) (subqs : List Query) : Except PyErr Query := do
  let conn ← connFold none subqs
  pure (.combination op subqs conn)

/-- Embeds `QueryNot.__init__` (multisearch/queries.py lines 292-295,
identical in redissearch/queries.py lines 269-272): with more than two
subqueries the list is normalised to the pair
`(subqs[0], QueryOr(subqs[1:]))` before the ordinary combination
construction runs. -/
def mkQueryNot (subqs : List Query) : Except PyErr Query :=
  match subqs with
  | q0 :: q1 :: q2 :: rest => do
    let orq ← mkCombination Query.OR (q1 :: q2 :: rest)
    mkCombination Query.NOT [q0, orq]
  | _ => mkCombination Query.NOT subqs

/-- Embeds `QueryTerms.__init__` (multisearch/queries.py lines 329-348): a
`default_op` of `None` becomes `AND` and anything other than `AND`/`OR`
raises `TypeError`; the term list is stored as given and `conn` starts as
the supplied connection (`None` by default). -/
def mkQueryTerms (terms : List String) (default_op : Option Nat) :
    Except PyErr Query :=
  let dop := default_op.getD Query.AND
  if dop = Query.AND ∨ dop = Query.OR then
    .ok (.queryTerms terms dop none)
  else
    .error (.typeError "Operator must be either Query.AND or Query.OR")

/-- Embeds `Query.compose` (multisearch/queries.py lines 84-122, identical
in redissearch/queries.py lines 80-118).  Zero queries return a bare
`Query()`; one query is returned unchanged; otherwise the operator code is
looked up in the class dictionary (the string keys "OR"/"AND"/"XOR"/"NOT"/
"ANDNOT" of the source map to the same classes as the numeric codes used
here, and an unknown operator raises `KeyError`). -/
def compose (op : Nat) (queries : List Query) : Except PyErr Query :=
  match queries with
  | [] => .ok (.base none)
  | [q] => .ok q
  | _ =>
    if op = Query.OR ∨ op = Query.AND ∨ op = Query.XOR then
      mkCombination op queries
    else if op = Query.NOT then
      mkQueryNot queries
    else
      .error (.keyError (toString op))

/-- Lookup in a Python dict with `Int` values modelled as an association
list (first match wins; the update function below keeps keys unique). -/
def dictGetI : List (String × Int) → String → Option Int
  | [], _ => none
  | (k0, v0) :: rest, k => if k0 = k then some v0 else dictGetI rest k

/-- Assignment `d[k] = v` on a Python dict modelled as an association list:
replace the value if the key is present, else append the pair. -/
def dictSetI (d : List (String × Int)) (k : String) (v : Int) :
    List (String × Int) :=
  match d with
  | [] => [(k, v)]
  | (k0, v0) :: rest =>
    if k0 = k then (k0, v) :: rest else (k0, v0) :: dictSetI rest k v

/-- Embeds the `Search` class of multisearch/queries.py (lines 383-407).
The `params` dict holds the integer-valued window parameters
(`start_rank`, `end_rank`); the keyword arguments and `order_by` criteria
play no part in the claims and are not modelled.  `results` is the
`_results` cache (`none` = not computed yet). -/
structure Search where
  query : Query
  params : List (String × Int)
  results : Option Unit

/-- Embeds `Search.__init__` (multisearch/queries.py lines 384-390): the
start rank is clamped with `max(start_rank, 0)` before being stored, the
end rank is stored exactly as given, and the result cache starts empty.
The Python defaults are `start_rank=0`, `end_rank=10`. -/
def Search.init (query : Query) (start_rank : Int) (end_rank : Int) :
    Search :=
  { query := query
    params := dictSetI (dictSetI [] "start_rank" (max start_rank 0))
        "end_rank" end_rank
    results := none }

/-- Embeds the `Search.start_rank` method (multisearch/queries.py lines
392-399): clamps with `max(start_rank, 0)`, stores the value in `params`,
and invalidates the cached results. -/
def Search.start_rank (s : Search) (r : Int) : Search :=
  { s with params := dictSetI s.params "start_rank" (max r 0)
           results := none }

/-- Embeds the `Search.end_rank` method (multisearch/queries.py lines
401-407): stores the value exactly as given and invalidates the cache. -/
def Search.end_rank (s : Search) (r : Int) : Search :=
  { s with params := dictSetI s.params "end_rank" r
           results := none }

end Multisearch

namespace MSchema

/-- Parameter dictionaries of a field type binding (`params` in
multisearch/schema.py).  The source stores arbitrary values; the claims
only compare parameter dicts for equality, so values are modelled as
strings. -/
abbrev Params := List (String × String)

/-- One insertion into the canonical form of a Python dict: the canonical
form is sorted by key with unique keys, so Python dict equality coincides
with list equality of canonical forms. -/
def dictInsert (d : Params) (kv : String × String) : Params :=
  match d with
  | [] => [kv]
  | (k, v) :: rest =>
    if kv.1 < k then kv :: (k, v) :: rest
    else if kv.1 = k then (kv.1, kv.2) :: rest
    else (k, v) :: dictInsert rest kv

/-- Models the constructor call `dict(params)` of multisearch/schema.py
line 105 together with Python dict equality: the pair list is folded into
a canonical (sorted, key-unique, last-write-wins) association list. -/
def dictCanon (l : Params) : Params := l.foldl dictInsert []

/-- Lookup in the `types` dict of a schema (first match wins; the update
function below keeps keys unique). -/
def typesGet : List (String × (Nat × Params)) → String →
    Option (Nat × Params)
  | [], _ => none
  | (k0, v0) :: rest, k => if k0 = k then some v0 else typesGet rest k

/-- Assignment into the `types` dict of a schema. -/
def typesSet (d : List (String × (Nat × Params))) (k : String)
    (v : Nat × Params) : List (String × (Nat × Params)) :=
  match d with
  | [] => [(k, v)]
  | (k0, v0) :: rest =>
    if k0 = k then (k0, v) :: rest else (k0, v0) :: typesSet rest k v

/-- Embeds the `Schema` class state of multisearch/schema.py (lines
35-64): the `types` dict maps field names to `(type, params)` pairs and
`modified` tracks unsaved changes.  The indexer and query-generator caches
play no part in the claims. -/
structure Schema where
  types : List (String × (Nat × Params))
  modified : Bool

/-- Field type code `Schema.TEXT` (multisearch/schema.py line 41). -/
def Schema.TEXT : Nat := 0
/-- Field type code `Schema.BLOB` (multisearch/schema.py line 42). -/
def Schema.BLOB : Nat := 1
/-- The `Schema.alltypes` tuple (multisearch/schema.py line 44). -/
def Schema.alltypes : List Nat := [Schema.TEXT, Schema.BLOB]

/-- Embeds `Schema.__init__` (multisearch/schema.py lines 46-64). -/
def Schema.init : Schema := { types := [], modified := false }

/-- Embeds `Schema.get` (multisearch/schema.py lines 90-96): returns the
`(type, params)` pair and raises `KeyError` for an unknown field. -/
def Schema.get (s : Schema) (fieldname : String) :
    Except PyErr (Nat × Params) :=
  match typesGet s.types fieldname with
  | some tp => .ok tp
  | none => .error (.keyError fieldname)

/-- Embeds `Schema.set` (multisearch/schema.py lines 98-113): asserts the
type code is known, normalises the parameters with `dict(params)`, treats
a rebind with the identical pair as a no-op, raises `RuntimeError` on a
conflicting rebind, and otherwise stores the pair and marks the schema
modified. -/
def Schema.set (s : Schema) (fieldname : String) (type : Nat)
    (params : Params) : Except PyErr Schema :=
  if ¬ (type ∈ Schema.alltypes) then .error .assertionError else
  let params := dictCanon params
  match typesGet s.types fieldname with
  | some tp =>
    if tp ≠ (type, params) then
      .error (.runtimeError
        ("Cannot change field type (for field " ++ fieldname ++ ")"))
    else
      .ok s
  | none =>
    .ok { types := typesSet s.types fieldname (type, params)
          modified := true }

end MSchema

/-- JSON values, used to embed the schema wire format of
multisearch/utils/jsonschema.py.  The functions `json.dumps` and
`json.loads` of the external json library are modelled by identifying a
serialised string with its parsed value: `loads (dumps v) = v` for every
JSON-representable `v`, so serialisation produces a `JVal` directly and
unserialisation consumes one. -/
inductive JVal where
  | null
  | bool (b : Bool)
  | num (n : Int)
  | str (s : String)
  | arr (items : List JVal)
  | obj (fields : List (String × JVal))

/-- Subscript `v[key]` on a parsed JSON object: returns the value, or
raises `KeyError` when the key is missing (or the value is not an
object). -/
def JVal.get (v : JVal) (key : String) : Except PyErr JVal :=
  match v with
  | .obj fields =>
    match fields.find? (fun kv => kv.1 = key) with
    | some kv => .ok kv.2
    | none => .error (.keyError key)
  | _ => .error (.typeError "value is not a JSON object")

namespace MJsonSchema

/-- The constant `SCHEMA_FORMAT_VERSION` of multisearch/utils/jsonschema.py
line 33. -/
def SCHEMA_FORMAT_VERSION : Int := 1

/-- Embeds the `JsonSchema` class state (multisearch/utils/jsonschema.py
lines 42-64): `routes` and `types` are dicts whose values are
JSON-representable data, `modified` tracks unsaved changes, and
`modifiable` is cleared by read-only backends. -/
structure JsonSchema where
  routes : List (String × JVal)
  types : List (String × JVal)
  modified : Bool
  modifiable : Bool

/-- Embeds `JsonSchema.__init__` (multisearch/utils/jsonschema.py lines
42-64): fresh empty schema, unmodified and modifiable. -/
def JsonSchema.init : JsonSchema :=
  { routes := [], types := [], modified := false, modifiable := true }

/-- Embeds `JsonSchema.serialise` (multisearch/utils/jsonschema.py lines
93-102): builds the dict `{version: 1, fieldtypes: types, routes: routes}`
and dumps it with `sort_keys=True`, so the keys appear in the sorted order
fieldtypes, routes, version.  Note the version is stored under the key
"version". -/
def JsonSchema.serialise (s : JsonSchema) : JVal :=
  .obj [("fieldtypes", .obj s.types),
        ("routes", .obj s.routes),
        ("version", .num SCHEMA_FORMAT_VERSION)]

/-- Embeds the static method `JsonSchema.unserialise`
(multisearch/utils/jsonschema.py lines 74-91): `None` or the empty string
yield a fresh schema (modelled as the `none` input); otherwise the value
is parsed and the key "format_version" is read first, so any input lacking
that key raises `KeyError("format_version")` before anything else
happens. -/
def JsonSchema.unserialise (value : Option JVal) :
    Except PyErr JsonSchema := do
  match value with
  | none => .ok JsonSchema.init
  | some schema =>
    let formatVersion ← schema.get "format_version"
    match formatVersion with
    | .num n =>
      if n ≠ SCHEMA_FORMAT_VERSION then
        .error (.runtimeError "Cannot handle this version of the schema")
      else do
        let fieldtypes ← schema.get "fieldtypes"
        let routes ← schema.get "routes"
        match fieldtypes, routes with
        | .obj ft, .obj rt =>
          .ok { routes := rt, types := ft, modified := false,
                modifiable := true }
        | _, _ => .error (.typeError "schema fields are not JSON objects")
    | _ => .error (.runtimeError "Cannot handle this version of the schema")

end MJsonSchema

namespace Redissearch

open Multisearch

/-- The tag of one entry of the `cmds` list built by `RedisSearch.search`
(redissearch/main.py lines 217-247): either the literal string "score" or
the integer operator code of the query node. -/
inductive CmdTag where
  | score
  | op (n : Nat)
deriving DecidableEq, Repr

/-- One entry `(cmd, dest, inputs)` of the `cmds` list built by
`RedisSearch.search` (redissearch/main.py lines 217-247). -/
structure Cmd where
  tag : CmdTag
  dest : String
  inputs : List String
deriving DecidableEq, Repr

/-- Lookup in the `pieces` dict (keyed by depth) of `RedisSearch.search`. -/
def piecesGet (d : List (Nat × List String)) (k : Nat) :
    Option (List String) :=
  match d.find? (fun kv => kv.1 = k) with
  | some kv => some kv.2
  | none => none

/-- Assignment into the `pieces` dict: replace if present, else append. -/
def piecesSet (d : List (Nat × List String)) (k : Nat) (v : List String) :
    List (Nat × List String) :=
  match d with
  | [] => [(k, v)]
  | (k0, v0) :: rest =>
    if k0 = k then (k0, v) :: rest else (k0, v0) :: piecesSet rest k v

/-- The statement `del pieces[depth + 1]` on the `pieces` dict. -/
def piecesDel (d : List (Nat × List String)) (k : Nat) :
    List (Nat × List String) :=
  d.filter (fun kv => kv.1 ≠ k)

/-- Combined effect of `subpieces = pieces.setdefault(depth, [])` followed
by `subpieces.append(cachekey)`: the list at `depth` (created empty when
absent) gets `cachekey` appended in place. -/
def piecesAppend (d : List (Nat × List String)) (k : Nat) (v : String) :
    List (Nat × List String) :=
  piecesSet d k ((piecesGet d k).getD [] ++ [v])

/-- Type of the hash function `sha` of redissearch/main.py lines 15-16
(`hashlib.sha1(value).hexdigest()`).  The hash is an external collaborator;
the compiler definitions take it as a parameter, which only needs to be a
deterministic function for the claims proved here. -/
abbrev Sha := String → String

/-- Processing of one child entry pushed on the walk stack by
redissearch/main.py line 211.  The source pushes every child as
`[query.subqs[index], None]` — with index `None`, not `0`.  A
non-combination child is yielded at its stack depth and popped, and the
`None` index is never read.  A combination child, however, re-enters the
`isinstance` branch of the loop: in Python 2 the comparison
`None < len(query.subqs)` is true (`None` orders below every integer), so
the loop executes `stack[-1][1] = None + 1`, which raises
`TypeError: unsupported operand type(s) for +: NoneType and int` before
anything is yielded for that child.  Returns the pairs yielded for the
child together with the terminal exception, if any. -/
def walkChild (depth : Nat) (q : Query) :
    List (Nat × Query) × Option PyErr :=
  match q with
  | .combination _ _ _ =>
    ([], some (.typeError
        "unsupported operand type(s) for +: NoneType and int"))
  | _ => ([(depth, q)], none)

/-- Left-to-right processing of the children of the root combination, each
pushed with index `None` (see `walkChild`): the yields of the children
before the first combination child, together with that child's
exception. -/
def walkChildren (depth : Nat) :
    List Query → List (Nat × Query) × Option PyErr
  | [] => ([], none)
  | q :: qs =>
    match walkChild depth q with
    | (ys, none) =>
      let rest := walkChildren depth qs
      (ys ++ rest.1, rest.2)
    | (ys, some e) => (ys, some e)

/-- Denotation of the generator `walk` inside `RedisSearch.search`
(redissearch/main.py lines 201-214), an explicit-stack loop.  The root is
pushed with index `0` (line 205), so a root combination has its children
visited left to right (each at stack depth 1) and is itself yielded after
them at depth 0; a non-combination root is yielded directly at depth 0.
Because every child is pushed with index `None` (line 211), a combination
child crashes the generator with `TypeError` before being yielded (see
`walkChild`): only trees whose sole combination is the root are ever
walked to completion.  Returns the sequence of yielded `(depth, node)`
pairs together with the exception that terminates the generator, if
any. -/
def walk (q : Query) : List (Nat × Query) × Option PyErr :=
  match q with
  | .combination op subqs conn =>
    match walkChildren 1 subqs with
    | (ys, none) => (ys ++ [(0, .combination op subqs conn)], none)
    | (ys, some e) => (ys, some e)
  | _ => ([(0, q)], none)

/-- One iteration of the command-building loop of `RedisSearch.search`
(redissearch/main.py lines 218-247), processing the `(depth, query)` pair
yielded by `walk` against the current `pieces` dict and `cmds` list.

A `QueryTerms` node maps each term to the pair (term key, cache key =
sha(term)); an empty term list executes `raise UnimplementedError(...)`,
whose unbound name raises `NameError` (the intended message was "empty
queries not yet implemented"); a single term emits one score command; a
multi-term node emits one score command per term plus one combining
command under the node's `default_op`, keyed by the hash of the
concatenated cache keys.

A combination node with operator OR, AND or NOT consumes the cache keys
collected at `depth + 1` (raising `KeyError` if there are none, which only
happens for a combination with no subqueries), emits one command keyed by
`sha(str(op) ++ ":" ++ concatenated keys)`, stores that key at `depth`,
and deletes the entry at `depth + 1`.

Every other node (XOR or unknown combinations, `MultWeight`, `All`,
`None`, `Similar`, a bare `Query`) reaches
`raise UnimplementedError("Query operator ...")`, again a `NameError`. -/
def step (sha : Sha) (dbp : String)
    (st : List (Nat × List String) × List Cmd) (dq : Nat × Query) :
    Except PyErr (List (Nat × List String) × List Cmd) :=
  let (pieces, cmds) := st
  let (depth, query) := dq
  match query with
  | .queryTerms terms default_op _ =>
    let keys := terms.map (fun term => (dbp ++ "docs:" ++ term, sha term))
    match keys with
    | [] => .error (.nameError "UnimplementedError")
    | [(termkey, cachekey)] =>
      .ok (piecesAppend pieces depth cachekey,
           cmds ++ [⟨.score, cachekey, [termkey]⟩])
    | _ =>
      let cachekeys := keys.map (fun kv => kv.2)
      let cmds := cmds ++ keys.map (fun kv => ⟨.score, kv.2, [kv.1]⟩)
      let cachekey := sha (String.join cachekeys)
      .ok (piecesAppend pieces depth cachekey,
           cmds ++ [⟨.op default_op, cachekey, cachekeys⟩])
  | .combination op _ _ =>
    if op = Query.OR ∨ op = Query.AND ∨ op = Query.NOT then
      match piecesGet pieces (depth + 1) with
      | none => .error (.keyError (toString (depth + 1)))
      | some cachekeys =>
        let cachekey := sha (toString op ++ ":" ++ String.join cachekeys)
        .ok (piecesDel (piecesAppend pieces depth cachekey) (depth + 1),
             cmds ++ [⟨.op op, cachekey, cachekeys⟩])
    else
      .error (.nameError "UnimplementedError")
  | _ => .error (.nameError "UnimplementedError")

/-- The full command-building phase of `RedisSearch.search`
(redissearch/main.py lines 216-247).  The for-loop consumes the `walk`
generator lazily, so each `(depth, node)` pair yielded before the
generator's terminal exception is processed by `step` in order; an
exception raised while processing a yield aborts first, and otherwise the
generator's own exception (if any) propagates when the loop asks for the
next item.  Only a tree the generator walks to completion yields the
accumulated `cmds` list. -/
def searchCmds (sha : Sha) (dbp : String) (q : Query) :
    Except PyErr (List Cmd) := do
  let w := walk q
  let st ← w.1.foldlM (step sha dbp) ([], [])
  match w.2 with
  | some e => .error e
  | none => pure st.2

/-- A redis command queued on the transaction pipeline by the second loop
of `RedisSearch.search` (redissearch/main.py lines 252-280). -/
inductive RedisCall where
  | sinterstore (dest : String) (inputs : List String)
  | sunionstore (dest : String) (inputs : List String)
  | sdiffstore (dest : String) (inputs : List String)
  | smembers (key : String)
  | delete (key : String)
deriving DecidableEq, Repr

/-- The helper `cachekey` closure of `RedisSearch.search` (redissearch/
main.py lines 249-250). -/
def cacheKeyName (dbp : String) (key : String) : String :=
  dbp ++ "cache:" ++ key

/-- The pipeline-building loop of `RedisSearch.search` (redissearch/
main.py lines 252-280): each command becomes one store call on the
pipeline (score and AND commands intersect, OR commands union, NOT
commands difference; score inputs are raw term keys while combination
inputs go through the cache-key prefix); the destination keys are
collected for cleanup.  When no command was emitted the method returns the
empty tuple without touching the backend; otherwise a final read of the
root destination and one delete per intermediate key complete the
pipeline, which is then executed as a single transaction. -/
def buildPipe (dbp : String) (cmds : List Cmd) :
    Except PyErr (List RedisCall) := do
  let folded ← cmds.foldlM
    (fun (acc : List RedisCall × List String × Option String) c => do
      let (pipe, cleanup, _) := acc
      let destkey := cacheKeyName dbp c.dest
      let call ←
        match c.tag with
        | .score => pure (RedisCall.sinterstore destkey c.inputs)
        | .op o =>
          if o = Query.OR then
            pure (RedisCall.sunionstore destkey
              (c.inputs.map (cacheKeyName dbp)))
          else if o = Query.AND then
            pure (RedisCall.sinterstore destkey
              (c.inputs.map (cacheKeyName dbp)))
          else if o = Query.NOT then
            pure (RedisCall.sdiffstore destkey
              (c.inputs.map (cacheKeyName dbp)))
          else
            .error (.nameError "UnimplementedError")
      pure (pipe ++ [call], cleanup ++ [destkey], some destkey))
    ([], [], none)
  match folded.2.2 with
  | none => pure []
  | some destkey =>
    pure (folded.1 ++ [RedisCall.smembers destkey]
      ++ folded.2.1.map RedisCall.delete)

/-- The whole compile-and-queue part of `RedisSearch.search`: build the
command list from the query tree, then the pipeline from the commands.
Any exception raised while compiling means no pipeline is ever built and
no backend command is executed. -/
def searchPipe (sha : Sha) (dbp : String) (q : Query) :
    Except PyErr (List RedisCall) := do
  buildPipe dbp (← searchCmds sha dbp q)

end Redissearch

namespace Xapian

/-- A `xapian.Document` as far as the claims need it: its term list and
its stored data blob.  The wrapped engine is an external collaborator;
`add_term` appends to the term list. -/
structure XDoc where
  terms : List String
  data : String
deriving DecidableEq, Repr

/-- The engine call `xdoc.add_term(term)`. -/
def XDoc.add_term (d : XDoc) (t : String) : XDoc :=
  { d with terms := d.terms ++ [t] }

/-- The collaborating xapian database (§6 of the spec: replace/delete
document by unique term, term-existence check): documents are stored
keyed by their unique document-id term. -/
structure XapianDb where
  docs : List (String × XDoc)
deriving DecidableEq, Repr

/-- The engine call `db.term_exists(term)`, restricted to the document-id
terms the claims use: true when some stored document carries the term. -/
def XapianDb.term_exists (db : XapianDb) (t : String) : Bool :=
  db.docs.any (fun kv => decide (t ∈ kv.2.terms))

/-- The engine call `db.replace_document(unique_term, doc)`: replaces the
document filed under the unique term, or adds it when none exists. -/
def XapianDb.replace_document (db : XapianDb) (t : String) (d : XDoc) :
    XapianDb :=
  let rec go : List (String × XDoc) → List (String × XDoc)
    | [] => [(t, d)]
    | (k, v) :: rest => if k = t then (k, d) :: rest else (k, v) :: go rest
  { docs := go db.docs }

/-- The document stored under a given unique term, if any (used to state
what `update` did to the database). -/
def XapianDb.get_doc (db : XapianDb) (t : String) : Option XDoc :=
  match db.docs.find? (fun kv => kv.1 = t) with
  | some kv => some kv.2
  | none => none

/-- The `idprefix` attribute of the xapian clients
(multisearch/backends/xapian_backend/client.py line 359). -/
def idprefix : String := "Q"

/-- Embeds `BaseSearchClient.get_docid_term` (client.py lines 395-399). -/
def get_docid_term (docid : String) : String := idprefix ++ docid

/-- Embeds `WritableSearchClient.update`
(multisearch/backends/xapian_backend/client.py lines 605-625) on the
branch where a docid is supplied and `doc` is already a `xapian.Document`
(the `process` branch differs only in how the document is built, not in
the existence check or the replace).  The automatic docid allocation of
the `docid is None` branch draws random ids and is not modelled; the
claims always supply a docid.

Note the source line 615 reads
`if fail_if_exists and not self.db.term_exists(docidterm):` —
it raises `DocExistsError` when the document does NOT exist, and silently
replaces the stored document when it does. -/
def update (db : XapianDb) (doc : XDoc) (docid : String)
    (fail_if_exists : Bool) : Except PyErr (XapianDb × String) :=
  let docidterm := get_docid_term docid
  if fail_if_exists && !(db.term_exists docidterm) then
    .error (.docExists ("Document with ID " ++ docid ++ " already exists"))
  else
    let xdoc := doc.add_term docidterm
    .ok (db.replace_document docidterm xdoc, docid)

end Xapian

namespace ClosedModel

/-- Calling the attribute `name` of a `ClosedBackend` instance with
`nargs` positional arguments (multisearch/backends/closed_backend.py):
the class defines `close` as a real no-op method, and `__getattr__` hands
out the zero-parameter closure `raiseerror` for every other attribute.
Calling that closure with no arguments runs its body,
`raise errors.DbClosedError("This database has already been closed")` —
but closed_backend.py contains no import statements at all, so the name
`errors` is unbound there and the body raises
`NameError: global name errors is not defined` instead of the intended
`DbClosedError`.  Calling the closure with any positional arguments fails
even earlier, in the Python call machinery itself, with `TypeError`
(the closure accepts none), so the body never runs. -/
def closedBackendCall (name : String) (nargs : Nat) : Except PyErr Unit :=
  if name = "close" then .ok ()
  else if nargs = 0 then
    .error (.nameError "errors")
  else
    .error (.typeError "raiseerror() takes no arguments")

/-- The backend slot of a `SearchClient` (multisearch/client.py): either
the live backend adapter or a `ClosedBackend` sentinel. -/
inductive Backend where
  | live
  | closed
deriving DecidableEq, Repr

/-- The `SearchClient` facade state as far as the close protocol is
concerned (multisearch/client.py). -/
structure SearchClient where
  backend : Backend
deriving DecidableEq, Repr

/-- Embeds `SearchClient.close` (multisearch/client.py lines 133-138):
`self.backend.close()` (a no-op for both a live backend, whose close is
delegated to the adapter, and a `ClosedBackend`), then the backend slot is
replaced by a fresh `ClosedBackend`. -/
def SearchClient.close (c : SearchClient) : Except PyErr SearchClient :=
  match c.backend with
  | .live => .ok { backend := .closed }
  | .closed => (closedBackendCall "close" 0).map
      (fun _ => { backend := .closed })

/-- Embeds `SearchClient.commit` (multisearch/client.py lines 140-148):
delegates `self.backend.commit()` with zero arguments.  The behaviour of
a live backend is out of scope and modelled as success. -/
def SearchClient.commit (c : SearchClient) : Except PyErr Unit :=
  match c.backend with
  | .live => .ok ()
  | .closed => closedBackendCall "commit" 0

/-- Embeds the delegation `self.backend.update(doc, docid, fail_if_exists)`
of `SearchClient.update` (multisearch/client.py line 193): three
positional arguments. -/
def SearchClient.update (c : SearchClient) : Except PyErr Unit :=
  match c.backend with
  | .live => .ok ()
  | .closed => closedBackendCall "update" 3

/-- Embeds the delegation `self.backend.delete(docid, fail_if_missing)` of
`SearchClient.delete` (multisearch/client.py line 203): two positional
arguments. -/
def SearchClient.delete (c : SearchClient) : Except PyErr Unit :=
  match c.backend with
  | .live => .ok ()
  | .closed => closedBackendCall "delete" 2

/-- Embeds the delegation `self.backend.search(search)` of
`SearchClient.search` (multisearch/client.py line 254): one positional
argument. -/
def SearchClient.search (c : SearchClient) : Except PyErr Unit :=
  match c.backend with
  | .live => .ok ()
  | .closed => closedBackendCall "search" 1

end ClosedModel

namespace Samples

open Multisearch

/-- A concrete stand-in for the external hash `sha` of redissearch/main.py
(an injective deterministic encoding), used to instantiate theorems whose
statement quantifies over the hash function. -/
def shaModel : Redissearch.Sha := fun v => "sha1(" ++ v ++ ")"

/-- A single-term query on term "a" (an unconnected `QueryTerms`). -/
def qta : Query := .queryTerms ["a"] Query.AND none
/-- A single-term query on term "b". -/
def qtb : Query := .queryTerms ["b"] Query.AND none
/-- A single-term query on term "c". -/
def qtc : Query := .queryTerms ["c"] Query.AND none
/-- The subquery `A AND B` over the single-term queries above. -/
def qAB : Query := .combination Query.AND [qta, qtb] none
/-- The query `(A AND B) OR (A AND B)` of the compiler-deduplication
claim, containing the same `AND` subquery twice. -/
def c1tree : Query := .combination Query.OR [qAB, qAB] none
/-- A single-term query already connected to backend 0. -/
def qConn0 : Query := .queryTerms ["a"] Query.AND (some 0)
/-- A single-term query already connected to backend 1. -/
def qConn1 : Query := .queryTerms ["b"] Query.AND (some 1)

/-- The query `(A AND B) OR (A AND B)` with the single-term subqueries
`A = [a]` and `B = [b]`, parameterized by the term strings. -/
def c1treeG (a b : String) : Query :=
  .combination Query.OR
    [.combination Query.AND
      [.queryTerms [a] Query.AND none, .queryTerms [b] Query.AND none] none,
     .combination Query.AND
      [.queryTerms [a] Query.AND none, .queryTerms [b] Query.AND none] none]
    none

/-- Number of intersect (`AND`) commands in the command list compiled for
the concrete query `(A AND B) OR (A AND B)` with terms "a" and "b"
(`none` when compilation raised). -/
def c1AndCount : Option Nat :=
  (Redissearch.searchCmds shaModel "testdb:" c1tree).toOption.map
    (fun cmds =>
      (cmds.filter (fun c => c.tag = .op Query.AND)).length)

/-- The normalised form of `QueryNot((A, B, C))`: a NOT node with exactly
two children, the positive term and the OR of the rest. -/
def c5not (a b c : String) : Query :=
  .combination Query.NOT
    [.queryTerms [a] Query.AND none,
     .combination Query.OR
       [.queryTerms [b] Query.AND none, .queryTerms [c] Query.AND none]
       none]
    none

/-- The schema produced by binding field "title" to (TEXT, {}) on a fresh
schema. -/
def s4 : MSchema.Schema := { types := [("title", (0, []))], modified := true }

/-- A stored xapian document with data "old", carrying its docid term. -/
def xdocOld : Xapian.XDoc := { terms := ["Q1"], data := "old" }
/-- A fresh xapian document with data "new" and no terms yet. -/
def xdocNew : Xapian.XDoc := { terms := [], data := "new" }
/-- A database already holding a document under docid "1". -/
def db1 : Xapian.XapianDb := { docs := [("Q1", xdocOld)] }
/-- An empty database. -/
def db0 : Xapian.XapianDb := { docs := [] }

end Samples

/-! Helper lemmas about the dictionary embeddings and the connection fold,
shared by the claim theorems below. -/

/-- Setting a key in an Int-valued dict and reading it back yields the
value just written. -/
theorem dictGetI_set_self (d : List (String × Int)) (k : String) (v : Int) :
    Multisearch.dictGetI (Multisearch.dictSetI d k v) k = some v := by
  induction d with
  | nil => simp [Multisearch.dictSetI, Multisearch.dictGetI]
  | cons kv rest ih =>
    obtain ⟨k0, v0⟩ := kv
    by_cases hk : k0 = k
    · simp [Multisearch.dictSetI, hk, Multisearch.dictGetI]
    · simp [Multisearch.dictSetI, hk, Multisearch.dictGetI, ih]

/-- Setting one key in an Int-valued dict leaves every other key
unchanged. -/
theorem dictGetI_set_other (d : List (String × Int)) (k k2 : String)
    (v : Int) (h : k ≠ k2) :
    Multisearch.dictGetI (Multisearch.dictSetI d k v) k2 =
      Multisearch.dictGetI d k2 := by
  induction d with
  | nil => simp [Multisearch.dictSetI, Multisearch.dictGetI, h]
  | cons kv rest ih =>
    obtain ⟨k0, v0⟩ := kv
    by_cases hk : k0 = k
    · subst hk
      simp [Multisearch.dictSetI, Multisearch.dictGetI, h]
    · simp [Multisearch.dictSetI, hk, Multisearch.dictGetI, ih]

/-- Setting a field in a schema types dict and reading it back yields the
pair just written. -/
theorem typesGet_set_self (d : List (String × (Nat × MSchema.Params)))
    (k : String) (v : Nat × MSchema.Params) :
    MSchema.typesGet (MSchema.typesSet d k v) k = some v := by
  induction d with
  | nil => simp [MSchema.typesSet, MSchema.typesGet]
  | cons kv rest ih =>
    obtain ⟨k0, v0⟩ := kv
    by_cases hk : k0 = k
    · simp [MSchema.typesSet, hk, MSchema.typesGet]
    · simp [MSchema.typesSet, hk, MSchema.typesGet, ih]

/-- The `conn` attribute after `setConn` is the connection just stored. -/
theorem conn_setConn (q : Multisearch.Query) (c : Option Nat) :
    (q.setConn c).conn = c := by
  cases q <;> rfl

/-- Once the connection fold has latched onto a connection it either
fails or returns that connection. -/
theorem connFold_some (qs : List Multisearch.Query) :
    ∀ (a : Nat) (r : Option Nat),
      Multisearch.connFold (some a) qs = .ok r → r = some a := by
  induction qs with
  | nil =>
    intro a r h
    simp [Multisearch.connFold] at h
    exact h.symm
  | cons q qs ih =>
    intro a r h
    simp only [Multisearch.connFold] at h
    split at h
    · exact ih a r h
    · split at h
      · exact ih a r h
      · cases h

/-- When the connection fold succeeds, every subquery attached to some
connection is attached to the fold result. -/
theorem connFold_mem (qs : List Multisearch.Query) :
    ∀ (acc : Option Nat) (r : Option Nat) (q : Multisearch.Query) (c : Nat),
      Multisearch.connFold acc qs = .ok r → q ∈ qs → q.conn = some c →
      r = some c := by
  induction qs with
  | nil => intro _ _ _ _ _ hmem _; cases hmem
  | cons q0 qs ih =>
    intro acc r q c h hmem hc
    simp only [Multisearch.connFold] at h
    split at h
    next heq =>
      rcases List.mem_cons.mp hmem with rfl | hmem2
      · rw [heq] at hc; cases hc
      · exact ih acc r q c h hmem2 hc
    next c0 heq =>
      split at h
      next =>
        rcases List.mem_cons.mp hmem with rfl | hmem2
        · rw [heq] at hc
          cases hc
          exact connFold_some qs _ r h
        · exact ih (some c0) r q c h hmem2 hc
      next a =>
        split at h
        next hac =>
          rcases List.mem_cons.mp hmem with rfl | hmem2
          · rw [heq] at hc
            cases hc
            rw [connFold_some qs a r h, hac]
          · exact ih (some a) r q c h hmem2 hc
        next => cases h

/-- When every subquery is either unconnected or attached to `b`, a fold
that has already latched onto `b` succeeds with `b`. -/
theorem connFold_all (qs : List Multisearch.Query) (b : Nat)
    (h : ∀ q ∈ qs, q.conn = none ∨ q.conn = some b) :
    Multisearch.connFold (some b) qs = .ok (some b) := by
  induction qs with
  | nil => simp [Multisearch.connFold]
  | cons q0 qs ih =>
    simp only [Multisearch.connFold]
    split
    next heq => exact ih (fun q hq => h q (List.mem_cons_of_mem q0 hq))
    next c0 heq =>
      have hc0 : c0 = b := by
        rcases h q0 (List.mem_cons_self q0 qs) with h1 | h1
        · rw [heq] at h1; cases h1
        · rw [heq] at h1; exact Option.some.inj h1
      subst hc0
      simpa using ih (fun q hq => h q (List.mem_cons_of_mem q0 hq))

/-- When every subquery is either unconnected or attached to `b` and at
least one is attached, the fold of `QueryCombination.__init__` succeeds
and inherits `b`. -/
theorem connFold_first (qs : List Multisearch.Query) (b : Nat)
    (hall : ∀ q ∈ qs, q.conn = none ∨ q.conn = some b)
    (hex : ∃ q ∈ qs, q.conn = some b) :
    Multisearch.connFold none qs = .ok (some b) := by
  induction qs with
  | nil => obtain ⟨q, hq, _⟩ := hex; cases hq
  | cons q0 qs ih =>
    simp only [Multisearch.connFold]
    split
    next heq =>
      obtain ⟨q, hq, hqc⟩ := hex
      rcases List.mem_cons.mp hq with rfl | hq2
      · rw [heq] at hqc; cases hqc
      · exact ih (fun q2 hq2b => hall q2 (List.mem_cons_of_mem q0 hq2b))
          ⟨q, hq2, hqc⟩
    next c0 heq =>
      have hc0 : c0 = b := by
        rcases hall q0 (List.mem_cons_self q0 qs) with h1 | h1
        · rw [heq] at h1; cases h1
        · rw [heq] at h1; exact Option.some.inj h1
      subst hc0
      exact connFold_all qs c0
        (fun q hq => hall q (List.mem_cons_of_mem q0 hq))

/-! Claim theorems. -/

/-- C1, counterexample.  The claim states that compiling
`(A AND B) OR (A AND B)` emits exactly one intersect command for the
subquery `A AND B`.  At the concrete instance with single-term subqueries
`A = ["a"]`, `B = ["b"]` the compile never produces a command list at
all — the walk crashes — so the count of emitted intersect commands is
not one. -/
theorem C1_counterexample :
    Samples.c1AndCount = none ∧ Samples.c1AndCount ≠ some 1 := by
  constructor
  · decide
  · decide

/-- C1, amended.  Compiling `(A AND B) OR (A AND B)` (single-term
subqueries, arbitrary terms, arbitrary hash function and key prefix)
never emits an intersect command for `A AND B`, and creates no cache
entry: the walk pushes the nested `AND` children onto its stack with
index `None`, so the compile raises `TypeError` before any command is
recorded and no backend command is ever executed. -/
theorem C1_amended (sha : Redissearch.Sha) (pre a b : String) :
    Redissearch.searchCmds sha pre (Samples.c1treeG a b)
        = .error (.typeError
            "unsupported operand type(s) for +: NoneType and int") ∧
      Redissearch.searchPipe sha pre (Samples.c1treeG a b)
        = .error (.typeError
            "unsupported operand type(s) for +: NoneType and int") :=
  ⟨rfl, rfl⟩

/-- C2.  The claim states that `update(doc, docid=X, fail_if_exists=True)`
raises `DocExistsError` and leaves the stored document unmodified when a
document with id X exists, and stores the document when none exists.  The
source check is inverted: on a database already holding a document under
docid "1", the call succeeds and replaces the stored document; on an empty
database, the same call raises `DocExistsError`. -/
theorem C2_inverted_check :
    Samples.db1.term_exists "Q1" = true ∧
      Xapian.update Samples.db1 Samples.xdocNew "1" true
        = .ok ({ docs := [("Q1", { terms := ["Q1"], data := "new" })] }, "1") ∧
      Samples.db0.term_exists "Q1" = false ∧
      Xapian.update Samples.db0 Samples.xdocNew "1" true
        = .error (.docExists "Document with ID 1 already exists") :=
  ⟨rfl, rfl, rfl, rfl⟩

/-- C3.  The claim states that `unserialise(serialise(S))` succeeds and
reproduces the field types and routes of S.  In fact `serialise` stores
the format version under the key "version" while `unserialise` reads the
key "format_version", so the round trip raises
`KeyError("format_version")` for every schema S. -/
theorem C3_roundtrip_keyerror (S : MJsonSchema.JsonSchema) :
    MJsonSchema.JsonSchema.unserialise (some S.serialise)
      = .error (.keyError "format_version") := rfl

/-- C5, counterexample.  The claim states that compiling the normalised
`NOT(A, OR(B, C))` on the set-algebra backend issues the union command
for B and C before the difference command against A.  At the concrete
instance with terms "a", "b", "c" the compile raises `TypeError` (the
walk pushes the `OR` child with index `None`) and never returns a command
list, so neither a union nor a difference command is ever issued. -/
theorem C5_counterexample :
    Redissearch.searchCmds Samples.shaModel "testdb:"
        (Samples.c5not "a" "b" "c")
      = .error (.typeError
          "unsupported operand type(s) for +: NoneType and int") ∧
      (Redissearch.searchCmds Samples.shaModel "testdb:"
        (Samples.c5not "a" "b" "c")).toOption = none :=
  ⟨rfl, rfl⟩

/-- C5, amended.  `QueryNot` with the three operands A, B, C normalises
to `NOT(A, OR(B, C))` — a node with exactly two children, the positive
term and the negated alternation, exactly as claimed — but compiling the
normalised node on the set-algebra backend crashes instead of issuing
commands: the walk yields only the leaf A before pushing the `OR` child
with index `None` and raising `TypeError`, so the union and difference
commands are never issued and no backend command executes. -/
theorem C5_not_normalization (sha : Redissearch.Sha) (pre a b c : String) :
    Multisearch.mkQueryNot
        [.queryTerms [a] Multisearch.Query.AND none,
         .queryTerms [b] Multisearch.Query.AND none,
         .queryTerms [c] Multisearch.Query.AND none]
        = .ok (Samples.c5not a b c) ∧
      (Samples.c5not a b c).subqs.length = 2 ∧
      Redissearch.searchCmds sha pre (Samples.c5not a b c)
        = .error (.typeError
            "unsupported operand type(s) for +: NoneType and int") ∧
      Redissearch.searchPipe sha pre (Samples.c5not a b c)
        = .error (.typeError
            "unsupported operand type(s) for +: NoneType and int") :=
  ⟨rfl, rfl, rfl, rfl⟩

/-- C6.  Compiling a Terms query with an empty term list fails before any
backend command is queued — the command-building loop aborts, so the
pipeline phase never runs — but the exception is a `NameError`: the raise
site references the class `UnimplementedError`, which is defined nowhere
in the package, so Python never builds the intended
"empty queries not yet implemented" error. -/
theorem C6_empty_terms_nameerror (sha : Redissearch.Sha) (pre : String)
    (dop : Nat) (conn : Option Nat) :
    Redissearch.searchCmds sha pre (.queryTerms [] dop conn)
        = .error (.nameError "UnimplementedError") ∧
      Redissearch.searchPipe sha pre (.queryTerms [] dop conn)
        = .error (.nameError "UnimplementedError") :=
  ⟨rfl, rfl⟩

/-- C9.  After `close()` the backend slot holds a `ClosedBackend` and a
second `close()` raises nothing, but no operation raises the
closed-resource error: zero-argument operations such as `commit` reach
the body of the `raiseerror` closure, whose reference to the unimported
module name `errors` raises `NameError`; `update`, `delete` and `search`
pass positional arguments to the zero-parameter closure and fail even
earlier with `TypeError`. -/
theorem C9_closed_proxy :
    ClosedModel.SearchClient.close { backend := .live }
        = .ok { backend := .closed } ∧
      ClosedModel.SearchClient.close { backend := .closed }
        = .ok { backend := .closed } ∧
      ClosedModel.SearchClient.commit { backend := .closed }
        = .error (.nameError "errors") ∧
      ClosedModel.SearchClient.update { backend := .closed }
        = .error (.typeError "raiseerror() takes no arguments") ∧
      ClosedModel.SearchClient.delete { backend := .closed }
        = .error (.typeError "raiseerror() takes no arguments") ∧
      ClosedModel.SearchClient.search { backend := .closed }
        = .error (.typeError "raiseerror() takes no arguments") :=
  ⟨rfl, rfl, rfl, rfl, rfl, rfl⟩

/-- C10.  Both `Search.__init__` and the `start_rank` method store
`max(start_rank, 0)` under the params key "start_rank", so the stored
start rank is never negative, while "end_rank" is stored exactly as given
(both at construction and by the `end_rank` method, and the `start_rank`
method leaves it untouched). -/
theorem C10_start_rank_clamped (q : Multisearch.Query) (s e : Int)
    (srch : Multisearch.Search) (s2 e2 : Int) :
    Multisearch.dictGetI (Multisearch.Search.init q s e).params "start_rank"
        = some (max s 0) ∧
      (0 : Int) ≤ max s 0 ∧
      Multisearch.dictGetI (Multisearch.Search.init q s e).params "end_rank"
        = some e ∧
      Multisearch.dictGetI (srch.start_rank s2).params "start_rank"
        = some (max s2 0) ∧
      (0 : Int) ≤ max s2 0 ∧
      Multisearch.dictGetI (srch.start_rank s2).params "end_rank"
        = Multisearch.dictGetI srch.params "end_rank" ∧
      Multisearch.dictGetI (srch.end_rank e2).params "end_rank"
        = some e2 := by
  refine ⟨rfl, le_max_right s 0, rfl, ?_, le_max_right s2 0, ?_, ?_⟩
  · exact dictGetI_set_self srch.params "start_rank" (max s2 0)
  · exact dictGetI_set_other srch.params "start_rank" "end_rank"
      (max s2 0) (by decide)
  · exact dictGetI_set_self srch.params "end_rank" e2

/-- When a field is already bound in a schema, a further `set` call on it
is a conflict error for a different pair and a no-op for the identical
pair. -/
theorem schema_set_bound (s2 : MSchema.Schema) (f : String) (t0 : Nat)
    (pc : MSchema.Params) (t2 : Nat) (p2 : MSchema.Params)
    (hg : MSchema.typesGet s2.types f = some (t0, pc))
    (ht2 : t2 ∈ MSchema.Schema.alltypes) :
    ((t0, pc) ≠ (t2, MSchema.dictCanon p2) →
      MSchema.Schema.set s2 f t2 p2 = .error (.runtimeError
        ("Cannot change field type (for field " ++ f ++ ")"))) ∧
    ((t0, pc) = (t2, MSchema.dictCanon p2) →
      MSchema.Schema.set s2 f t2 p2 = .ok s2) := by
  constructor <;> intro hcase <;>
    simp [MSchema.Schema.set, ht2, hg, hcase]

/-- C4.  After `set(f, T, P)` succeeds, `get(f)` returns the bound pair
(T together with the dict built from P), a later `set(f, T2, P2)` with a
different pair fails with the conflict `RuntimeError`, and a later
`set(f, T, P)` with the identical pair is a no-op returning the schema
unchanged (so `get(f)` keeps returning the original pair throughout). -/
theorem C4_set_immutable (s s' : MSchema.Schema) (f : String) (t : Nat)
    (p : MSchema.Params) (h : MSchema.Schema.set s f t p = .ok s') :
    MSchema.Schema.get s' f = .ok (t, MSchema.dictCanon p) ∧
      (∀ (t2 : Nat) (p2 : MSchema.Params), t2 ∈ MSchema.Schema.alltypes →
        (t2, MSchema.dictCanon p2) ≠ (t, MSchema.dictCanon p) →
        MSchema.Schema.set s' f t2 p2 = .error (.runtimeError
          ("Cannot change field type (for field " ++ f ++ ")"))) ∧
      MSchema.Schema.set s' f t p = .ok s' := by
  have ht : t ∈ MSchema.Schema.alltypes := by
    by_contra ht
    simp [MSchema.Schema.set, ht] at h
  have hstored : MSchema.typesGet s'.types f
      = some (t, MSchema.dictCanon p) := by
    simp only [MSchema.Schema.set] at h
    rw [if_neg (not_not_intro ht)] at h
    split at h
    next tp heq =>
      split at h
      next => cases h
      next hne =>
        have htp : tp = (t, MSchema.dictCanon p) := not_not.mp hne
        injection h with h2
        subst h2
        rw [heq, htp]
    next heq =>
      injection h with h2
      subst h2
      exact typesGet_set_self s.types f (t, MSchema.dictCanon p)
  refine ⟨?_, ?_, ?_⟩
  · simp [MSchema.Schema.get, hstored]
  · intro t2 p2 ht2 hne2
    exact (schema_set_bound s' f t (MSchema.dictCanon p) t2 p2 hstored
      ht2).1 (fun heq2 => hne2 heq2.symm)
  · exact (schema_set_bound s' f t (MSchema.dictCanon p) t p hstored
      ht).2 rfl

/-- Building a combination whose connection fold succeeds stores the
subqueries as given with the inherited connection. -/
theorem mkCombination_ok (op : Nat) (qs : List Multisearch.Query)
    (c : Option Nat) (h : Multisearch.connFold none qs = .ok c) :
    Multisearch.mkCombination op qs = .ok (.combination op qs c) := by
  unfold Multisearch.mkCombination
  rw [h]
  rfl

/-- Building a combination whose connection fold fails propagates the
failure. -/
theorem mkCombination_err (op : Nat) (qs : List Multisearch.Query)
    (e : PyErr) (h : Multisearch.connFold none qs = .error e) :
    Multisearch.mkCombination op qs = .error e := by
  unfold Multisearch.mkCombination
  rw [h]
  rfl

/-- C7, amended.  `compose(op, qs)` with zero queries returns the bare
base `Query()` node (not an instance of the `QueryNone` empty-match
class — see the counterexample); with one query returns that query
unchanged;
with two or more queries none of which are attached to conflicting
backends it returns a Combination node with operator op over exactly
those subqueries in order — except NOT with more than two queries, which
normalises to a NOT node with exactly two children, the first query and
an OR of the rest. -/
theorem C7_amended :
    (∀ op : Nat, Multisearch.compose op [] = .ok (.base none)) ∧
    (∀ (op : Nat) (q : Multisearch.Query),
      Multisearch.compose op [q] = .ok q) ∧
    (∀ (op : Nat) (qs : List Multisearch.Query) (c : Option Nat),
      (op = Multisearch.Query.OR ∨ op = Multisearch.Query.AND ∨
        op = Multisearch.Query.XOR) →
      2 ≤ qs.length →
      Multisearch.connFold none qs = .ok c →
      Multisearch.compose op qs = .ok (.combination op qs c)) ∧
    (∀ (a b : Multisearch.Query) (c : Option Nat),
      Multisearch.connFold none [a, b] = .ok c →
      Multisearch.compose Multisearch.Query.NOT [a, b]
        = .ok (.combination Multisearch.Query.NOT [a, b] c)) ∧
    (∀ (q0 q1 q2 : Multisearch.Query) (rest : List Multisearch.Query)
        (c1 c2 : Option Nat),
      Multisearch.connFold none (q1 :: q2 :: rest) = .ok c1 →
      Multisearch.connFold none
        [q0, .combination Multisearch.Query.OR (q1 :: q2 :: rest) c1]
        = .ok c2 →
      Multisearch.compose Multisearch.Query.NOT (q0 :: q1 :: q2 :: rest)
        = .ok (.combination Multisearch.Query.NOT
            [q0, .combination Multisearch.Query.OR (q1 :: q2 :: rest) c1]
            c2)) := by
  refine ⟨fun op => rfl, fun op q => rfl, ?_, ?_, ?_⟩
  · intro op qs c hop hlen hfold
    cases qs with
    | nil => simp at hlen
    | cons a t =>
      cases t with
      | nil => simp at hlen
      | cons b t2 =>
        rcases hop with rfl | rfl | rfl
        · exact mkCombination_ok _ _ _ hfold
        · exact mkCombination_ok _ _ _ hfold
        · exact mkCombination_ok _ _ _ hfold
  · intro a b c hfold
    exact mkCombination_ok _ _ _ hfold
  · intro q0 q1 q2 rest c1 c2 h1 h2
    have hinner : Multisearch.mkQueryNot (q0 :: q1 :: q2 :: rest)
        = Multisearch.mkCombination Multisearch.Query.NOT
            [q0, .combination Multisearch.Query.OR (q1 :: q2 :: rest) c1] := by
      show Multisearch.mkCombination Multisearch.Query.OR (q1 :: q2 :: rest)
          >>= (fun orq => Multisearch.mkCombination Multisearch.Query.NOT
            [q0, orq]) = _
      rw [mkCombination_ok _ _ _ h1]
      rfl
    exact hinner.trans (mkCombination_ok _ _ _ h2)

/-- C7, counterexample.  The claim states that `compose(op, qs)` with
zero queries returns an empty-match node and with two or more queries
returns a Combination with exactly those subqueries in order.  In fact
`compose(OR, [])` returns a bare base `Query()` instance, which is not an
instance of the `QueryNone` empty-match class; `compose(NOT, [A, B, C])`
returns a node whose subqueries are `[A, OR(B, C)]`, differing from
`[A, B, C]`; and for two subqueries attached to different backends
`compose` raises instead of returning a node at all. -/
theorem C7_counterexample :
    Multisearch.compose Multisearch.Query.OR [] = .ok (.base none) ∧
    (Multisearch.Query.base none).isQueryNone = false ∧
    Multisearch.compose Multisearch.Query.NOT
        [Samples.qta, Samples.qtb, Samples.qtc]
      = .ok (.combination Multisearch.Query.NOT
          [Samples.qta,
           .combination Multisearch.Query.OR [Samples.qtb, Samples.qtc] none]
          none) ∧
    ([Samples.qta,
      Multisearch.Query.combination Multisearch.Query.OR
        [Samples.qtb, Samples.qtc] none]
      ≠ [Samples.qta, Samples.qtb, Samples.qtc]) ∧
    Multisearch.compose Multisearch.Query.OR
        [Samples.qConn0, Samples.qConn1]
      = .error .connectError := by
  refine ⟨rfl, rfl, rfl, ?_, rfl⟩
  intro h
  have h2 := (List.cons.inj h).2
  have h3 := (List.cons.inj h2).1
  exact Multisearch.Query.noConfusion h3

/-- C7, witness: the amended theorem applied at concrete inputs — an AND
of two unconnected term queries keeps its subquery list, and a NOT of
three normalises to two children. -/
theorem C7_amended_witness :
    Multisearch.compose Multisearch.Query.AND [Samples.qta, Samples.qtb]
      = .ok (.combination Multisearch.Query.AND
          [Samples.qta, Samples.qtb] none) ∧
    Multisearch.compose Multisearch.Query.NOT
        [Samples.qta, Samples.qtb, Samples.qtc]
      = .ok (.combination Multisearch.Query.NOT
          [Samples.qta,
           .combination Multisearch.Query.OR [Samples.qtb, Samples.qtc] none]
          none) :=
  ⟨C7_amended.2.2.1 Multisearch.Query.AND [Samples.qta, Samples.qtb] none
      (Or.inr (Or.inl rfl)) (by decide) rfl,
   C7_amended.2.2.2.2 Samples.qta Samples.qtb Samples.qtc [] none none
      rfl rfl⟩

/-- C8.  The first `connect(backend)` call binds an unconnected node to
that backend; a later `connect` to the same backend succeeds and returns
the node unchanged; `connect` to a different backend fails; constructing
a combination over subqueries attached to two different backends raises;
and a combination over subqueries that are unconnected or attached to one
common backend inherits that backend at construction time. -/
theorem C8_connect_binding :
    (∀ (q : Multisearch.Query) (b : Nat), q.conn = none →
      q.connect b = .ok (q.setConn (some b)) ∧
        (q.setConn (some b)).conn = some b) ∧
    (∀ (q : Multisearch.Query) (b : Nat), q.conn = some b →
      q.connect b = .ok q) ∧
    (∀ (q : Multisearch.Query) (b b2 : Nat), q.conn = some b2 → b2 ≠ b →
      q.connect b = .error .connectError) ∧
    (∀ (op : Nat) (qs : List Multisearch.Query)
        (q1 q2 : Multisearch.Query) (b1 b2 : Nat), q1 ∈ qs → q2 ∈ qs →
      q1.conn = some b1 → q2.conn = some b2 → b1 ≠ b2 →
      ∃ e, Multisearch.mkCombination op qs = .error e) ∧
    (∀ (op : Nat) (qs : List Multisearch.Query) (b : Nat),
      (∀ q ∈ qs, q.conn = none ∨ q.conn = some b) →
      (∃ q ∈ qs, q.conn = some b) →
      Multisearch.mkCombination op qs
        = .ok (.combination op qs (some b))) := by
  refine ⟨?_, ?_, ?_, ?_, ?_⟩
  · intro q b h
    exact ⟨by simp [Multisearch.Query.connect, h], conn_setConn q (some b)⟩
  · intro q b h
    simp [Multisearch.Query.connect, h]
  · intro q b b2 h hne
    simp [Multisearch.Query.connect, h, hne]
  · intro op qs q1 q2 b1 b2 h1 h2 hc1 hc2 hne
    cases hfold : Multisearch.connFold none qs with
    | ok r =>
      have e1 := connFold_mem qs none r q1 b1 hfold h1 hc1
      have e2 := connFold_mem qs none r q2 b2 hfold h2 hc2
      rw [e1] at e2
      exact absurd (Option.some.inj e2) hne
    | error e => exact ⟨e, mkCombination_err op qs e hfold⟩
  · intro op qs b hall hex
    exact mkCombination_ok op qs (some b) (connFold_first qs b hall hex)

/-- C8, witness: the binding theorem applied at concrete inputs. -/
theorem C8_connect_binding_witness :
    Multisearch.Query.connect Samples.qta 7
      = .ok (Samples.qta.setConn (some 7)) ∧
    Multisearch.Query.connect Samples.qConn0 0 = .ok Samples.qConn0 ∧
    Multisearch.Query.connect Samples.qConn0 1 = .error .connectError ∧
    (∃ e, Multisearch.mkCombination Multisearch.Query.OR
        [Samples.qConn0, Samples.qConn1] = .error e) ∧
    Multisearch.mkCombination Multisearch.Query.OR
        [Samples.qta, Samples.qConn0]
      = .ok (.combination Multisearch.Query.OR
          [Samples.qta, Samples.qConn0] (some 0)) :=
  ⟨(C8_connect_binding.1 Samples.qta 7 rfl).1,
   C8_connect_binding.2.1 Samples.qConn0 0 rfl,
   C8_connect_binding.2.2.1 Samples.qConn0 1 0 rfl (by decide),
   C8_connect_binding.2.2.2.1 Multisearch.Query.OR
     [Samples.qConn0, Samples.qConn1] Samples.qConn0 Samples.qConn1 0 1
     (List.mem_cons_self _ _)
     (List.mem_cons_of_mem _ (List.mem_cons_self _ _))
     rfl rfl (by decide),
   C8_connect_binding.2.2.2.2 Multisearch.Query.OR
     [Samples.qta, Samples.qConn0] 0
     (by
       intro q hq
       rcases List.mem_cons.mp hq with rfl | hq2
       · exact Or.inl rfl
       · rcases List.mem_cons.mp hq2 with rfl | hq3
         · exact Or.inr rfl
         · cases hq3)
     ⟨Samples.qConn0, List.mem_cons_of_mem _ (List.mem_cons_self _ _),
      rfl⟩⟩

/-- C4, witness: binding field "title" to (TEXT, empty params) on a fresh
schema, then rebinding with a different pair fails and rebinding with the
identical pair is a no-op. -/
theorem C4_set_immutable_witness :
    MSchema.Schema.set MSchema.Schema.init "title" 0 [] = .ok Samples.s4 ∧
    MSchema.Schema.get Samples.s4 "title" = .ok (0, []) ∧
    MSchema.Schema.set Samples.s4 "title" 1 []
      = .error (.runtimeError
          ("Cannot change field type (for field " ++ "title" ++ ")")) ∧
    MSchema.Schema.set Samples.s4 "title" 0 [] = .ok Samples.s4 :=
  ⟨rfl,
   (C4_set_immutable MSchema.Schema.init Samples.s4 "title" 0 [] rfl).1,
   (C4_set_immutable MSchema.Schema.init Samples.s4 "title" 0 [] rfl).2.1
     1 [] (by decide) (by decide),
   (C4_set_immutable MSchema.Schema.init Samples.s4 "title" 0 [] rfl).2.2⟩
